import Mathlib

/-!
Shallow embedding of `src/RapturePixelEngine.hpp`: the event model, the X11
polling dispatch, the window-creation failure policy, the callback registry,
the per-frame timing loop, and a two-thread interleaving semantics of the
configure/start handshake of `rpe::RapturePixelEngine`.
-/

/-- `Event::EventType` (uint8_t enum): `NONE = 0`, `KEY = 1`. -/
inductive EventType : Type
  | NONE
  | KEY
  deriving DecidableEq, Repr

/-- `Event::KeyEventType`: `PRESS = 0`, `RELEASE = 1`. -/
inductive KeyEventType : Type
  | PRESS
  | RELEASE
  deriving DecidableEq, Repr

/-- `rpe::Event`: a `type` tag plus an anonymous union holding a `KeyEvent`.
The union member is uninitialized (`none`) until `out.keyEvent.type = ...`
assigns it; the `Event()` and `Event(EventType)` constructors never write it. -/
structure Event : Type where
  type : EventType
  keyEvent : Option KeyEventType
  deriving DecidableEq, Repr

/-- The `Event(EventType type)` constructor: sets the tag, leaves the union
payload unwritten. -/
def Event.ofType (t : EventType) : Event :=
  { type := t, keyEvent := none }

/-- The native `XEvent.type` values that `Platform::PollEvents` can observe:
the select mask is `ExposureMask | KeyPressMask | KeyReleaseMask`, and when
`XCheckWindowEvent` returns false, `tmp` is an uninitialized local whose tag
may be anything (`Other` covers every non-key tag, as does `Expose`). -/
inductive XEventType : Type
  | KeyPress
  | KeyRelease
  | Expose
  | Other
  deriving DecidableEq, Repr

/-- One callback invocation performed by `Platform::PollEvents`, recorded in
program order with the `Event` value passed to the handler. -/
inductive Dispatch : Type
  | OnKey (e : Event)
  | OnEventCallback (e : Event)
  deriving DecidableEq, Repr

/-- `rpe::Platform::PollEvents`, as the sequence of callback invocations it
performs. `newEvent` is the result of `XCheckWindowEvent`; `tmpType` is
`tmp.type`. The `switch` builds `out` and, in the two key cases, calls
`callbacks.OnKey(out)` when `newEvent` holds; after the switch,
`callbacks.OnEventCallback(out)` is called when `newEvent` holds. -/
def Platform.PollEvents (newEvent : Bool) (tmpType : XEventType) : List Dispatch :=
  let switchResult : Event × List Dispatch :=
    match tmpType with
    | XEventType.KeyPress =>
        let out : Event := { Event.ofType EventType.KEY with keyEvent := some KeyEventType.PRESS }
        (out, if newEvent then [Dispatch.OnKey out] else [])
    | XEventType.KeyRelease =>
        let out : Event := { Event.ofType EventType.KEY with keyEvent := some KeyEventType.RELEASE }
        (out, if newEvent then [Dispatch.OnKey out] else [])
    | _ =>
        (Event.ofType EventType.NONE, [])
  switchResult.2 ++ (if newEvent then [Dispatch.OnEventCallback switchResult.1] else [])

/-- The key-press event value built by the `KeyPress` case of the switch. -/
def pressEvent : Event :=
  { type := EventType.KEY, keyEvent := some KeyEventType.PRESS }

/-- The key-release event value built by the `KeyRelease` case of the switch. -/
def releaseEvent : Event :=
  { type := EventType.KEY, keyEvent := some KeyEventType.RELEASE }

/-- The X server connection state seen by `Platform::CreateWindow`:
`available = false` models `XOpenDisplay(NULL)` returning null. -/
structure XServer : Type where
  available : Bool
  deriving DecidableEq, Repr

/-- Outcome of `Platform::CreateWindow`: either the process halts via
`std::exit(code)` after printing a diagnostic, or the window is created with
the given geometry and title. -/
inductive CreateWindowOutcome : Type
  | halted (code : Nat) (diagnostic : String)
  | created (x y : Int) (width height : Nat) (title : String)
  deriving DecidableEq, Repr

/-- `rpe::Platform::CreateWindow`: opens the display; if that fails it prints
"Can\x27t connect X server." and calls `std::exit(1)`; otherwise it creates,
configures and names the window — there is no other failure check. -/
def Platform.CreateWindow (server : XServer) (x y : Int) (width height : Nat)
    (title : String) : CreateWindowOutcome :=
  match server.available with
  | false => CreateWindowOutcome.halted 1 "Can\x27t connect X server."
  | true => CreateWindowOutcome.created x y width height title

/-- A `std::function<void(const Event&)>` field: `none` is the null (empty)
function, `some f` a callable target. -/
def EventHandler : Type := Option (Event → Unit)

/-- A `std::function<void()>` field. -/
def VoidHandler : Type := Option (Unit → Unit)

/-- The anonymous `callbacks` struct of `rpe::RapturePixelEngine`, with its
four `std::function` members. -/
structure Callbacks : Type where
  OnEventCallback : EventHandler
  OnBegin : VoidHandler
  OnEnd : VoidHandler
  OnKey : EventHandler

/-- The no-op lambda `[](const Event&) {}`. -/
def noopEventHandler : Event → Unit := fun _ => ()

/-- The no-op lambda `[]() {}`. -/
def noopVoidHandler : Unit → Unit := fun _ => ()

/-- The default member initializers of the `callbacks` struct:
`OnEventCallback`, `OnBegin` and `OnEnd` each default to a no-op lambda, and
`OnKey = OnEventCallback` copies the already-initialized no-op. -/
def callbacksDefault : Callbacks :=
  let onEventCallbackInit : EventHandler := some noopEventHandler
  { OnEventCallback := onEventCallbackInit
    OnBegin := some noopVoidHandler
    OnEnd := some noopVoidHandler
    OnKey := onEventCallbackInit }

/-- Assignment `callbacks.OnEventCallback = h`. -/
def Callbacks.setOnEventCallback (cs : Callbacks) (h : EventHandler) : Callbacks :=
  { cs with OnEventCallback := h }

/-- Assignment `callbacks.OnBegin = h`. -/
def Callbacks.setOnBegin (cs : Callbacks) (h : VoidHandler) : Callbacks :=
  { cs with OnBegin := h }

/-- Assignment `callbacks.OnEnd = h`. -/
def Callbacks.setOnEnd (cs : Callbacks) (h : VoidHandler) : Callbacks :=
  { cs with OnEnd := h }

/-- Assignment `callbacks.OnKey = h`. -/
def Callbacks.setOnKey (cs : Callbacks) (h : EventHandler) : Callbacks :=
  { cs with OnKey := h }

/-- All four handlers are non-null. -/
def Callbacks.allNonNull (cs : Callbacks) : Prop :=
  cs.OnEventCallback.isSome = true ∧ cs.OnBegin.isSome = true ∧
    cs.OnEnd.isSome = true ∧ cs.OnKey.isSome = true

/-- The window-side state touched by `Platform::SetWindowTitle`
(`XStoreName(d, w, title)` updates the stored window name). -/
structure PlatformState : Type where
  windowTitle : String
  deriving DecidableEq, Repr

/-- `rpe::Platform::SetWindowTitle`. -/
def Platform.SetWindowTitle (p : PlatformState) (title : String) : PlatformState :=
  { p with windowTitle := title }

/-- The data members of `rpe::RapturePixelEngine` (the `platform` pointer is
modelled by passing the `PlatformState` alongside). -/
structure RapturePixelEngineState : Type where
  x : Int
  y : Int
  width : Nat
  height : Nat
  title : String
  deltaTime : ℚ
  isRunning : Bool
  callbacks : Callbacks

/-- `rpe::RapturePixelEngine::SetWindowTitle`: delegates to
`platform->SetWindowTitle(title)` and touches nothing else. -/
def RapturePixelEngine.SetWindowTitle (e : RapturePixelEngineState) (p : PlatformState)
    (title : String) : RapturePixelEngineState × PlatformState :=
  (e, Platform.SetWindowTitle p title)

/-- The two locals of `TheThread` that drive the timing code, plus the
engine's `deltaTime` field they update (`currentFrameTime` is recomputed each
iteration and needs no persistent state). -/
structure FrameTiming : Type where
  lastFrameTime : ℚ
  deltaTime : ℚ
  deriving DecidableEq, Repr

/-- State on entry to the `for(;;)` loop: `lastFrameTime` was default
constructed, and `std::chrono::steady_clock::time_point`'s default constructor
value-initializes it to the clock epoch (duration zero). `d0` is whatever
happens to be in the engine's never-initialized `deltaTime` double. -/
def frameTimingInit (d0 : ℚ) : FrameTiming :=
  { lastFrameTime := 0, deltaTime := d0 }

/-- One iteration of the timing prefix of the loop body, with `times n` the
value `steady_clock::now()` returns on iteration `n`:
`deltaTime = currentFrameTime - lastFrameTime; lastFrameTime = currentFrameTime`. -/
def frameStep (times : Nat → ℚ) (n : Nat) (s : FrameTiming) : FrameTiming :=
  let currentFrameTime : ℚ := times n
  { deltaTime := currentFrameTime - s.lastFrameTime
    lastFrameTime := currentFrameTime }

/-- The timing state after `n` iterations of the loop. -/
def runFrames (times : Nat → ℚ) (d0 : ℚ) : Nat → FrameTiming
  | 0 => frameTimingInit d0
  | n + 1 => frameStep times n (runFrames times d0 n)

theorem runFrames_lastFrameTime (times : Nat → ℚ) (d0 : ℚ) (k : Nat) :
    (runFrames times d0 (k + 1)).lastFrameTime = times k := by
  simp [runFrames, frameStep]

/-- Claim C1, counterexample to the stated order: at a poll yielding a
key-press event, the dispatch sequence is `OnKey` first and then
`OnEventCallback`, both with the same event value, so it is not the
onEvent-first sequence the claim states. -/
theorem C1_counterexample :
    Platform.PollEvents true XEventType.KeyPress =
      [Dispatch.OnKey pressEvent, Dispatch.OnEventCallback pressEvent] ∧
    Platform.PollEvents true XEventType.KeyPress ≠
      [Dispatch.OnEventCallback pressEvent, Dispatch.OnKey pressEvent] := by
  constructor
  · rfl
  · decide

/-- Claim C1 (amended): for every poll that yields an event of kind Key, both
handlers fire exactly once each with the same Event value, onKey first and
then onEvent; for a poll that yields no event, neither handler fires. -/
theorem C1_key_poll_dispatch (newEvent : Bool) (tmpType : XEventType) :
    (newEvent = true →
      tmpType = XEventType.KeyPress ∨ tmpType = XEventType.KeyRelease →
      ∃ e : Event, e.type = EventType.KEY ∧
        Platform.PollEvents newEvent tmpType =
          [Dispatch.OnKey e, Dispatch.OnEventCallback e]) ∧
    (newEvent = false → Platform.PollEvents newEvent tmpType = []) := by
  constructor
  · rintro rfl (rfl | rfl)
    · exact ⟨pressEvent, rfl, rfl⟩
    · exact ⟨releaseEvent, rfl, rfl⟩
  · rintro rfl
    cases tmpType <;> rfl

/-- Concrete instance of C1_key_poll_dispatch: a key-press poll and an
empty poll. -/
theorem C1_key_poll_dispatch_witness :
    (∃ e : Event, e.type = EventType.KEY ∧
      Platform.PollEvents true XEventType.KeyPress =
        [Dispatch.OnKey e, Dispatch.OnEventCallback e]) ∧
    Platform.PollEvents false XEventType.Other = [] :=
  ⟨(C1_key_poll_dispatch true XEventType.KeyPress).1 rfl (Or.inl rfl),
   (C1_key_poll_dispatch false XEventType.Other).2 rfl⟩

/-- Claim C4, counterexample: a poll in which the native backend reports an
Expose event (an uninteresting type) does dispatch a callback — the
`if(newEvent)` guard after the switch fires `OnEventCallback` with the
`NONE`-tagged event — so the poll result is not "no event". -/
theorem C4_counterexample :
    Platform.PollEvents true XEventType.Expose =
      [Dispatch.OnEventCallback (Event.ofType EventType.NONE)] ∧
    Platform.PollEvents true XEventType.Expose ≠ [] := by
  constructor
  · rfl
  · decide

/-- Claim C4 (amended): when the native backend reports no event available,
neither handler is dispatched; when it reports an event of an uninteresting
type (any type other than key-press or key-release), onKey is not dispatched
but onEvent is dispatched exactly once with a `NONE`-kind event. -/
theorem C4_uninteresting_poll (newEvent : Bool) (tmpType : XEventType) :
    (newEvent = false → Platform.PollEvents newEvent tmpType = []) ∧
    (newEvent = true →
      tmpType ≠ XEventType.KeyPress → tmpType ≠ XEventType.KeyRelease →
      Platform.PollEvents newEvent tmpType =
        [Dispatch.OnEventCallback (Event.ofType EventType.NONE)]) := by
  constructor
  · rintro rfl
    cases tmpType <;> rfl
  · rintro rfl h1 h2
    cases tmpType with
    | KeyPress => exact absurd rfl h1
    | KeyRelease => exact absurd rfl h2
    | Expose => rfl
    | Other => rfl

/-- Concrete instance of C4_uninteresting_poll: an empty poll and an Expose
poll. -/
theorem C4_uninteresting_poll_witness :
    Platform.PollEvents false XEventType.KeyPress = [] ∧
    Platform.PollEvents true XEventType.Expose =
      [Dispatch.OnEventCallback (Event.ofType EventType.NONE)] :=
  ⟨(C4_uninteresting_poll false XEventType.KeyPress).1 rfl,
   (C4_uninteresting_poll true XEventType.Expose).2 rfl (by decide) (by decide)⟩

/-- Claim C6: on every loop iteration the engine's deltaTime is set to the
current time sample minus the previous iteration's sample, the previous
sample is then updated to the current one, and for all frames after the
first the stored deltaTime is nonnegative when the clock is monotonic. -/
theorem C6_delta_time (times : Nat → ℚ) (d0 : ℚ)
    (hmono : ∀ n, times n ≤ times (n + 1)) (n : Nat) :
    (runFrames times d0 (n + 1)).deltaTime =
      times n - (runFrames times d0 n).lastFrameTime ∧
    (runFrames times d0 (n + 1)).lastFrameTime = times n ∧
    (1 ≤ n → 0 ≤ (runFrames times d0 (n + 1)).deltaTime) := by
  refine ⟨by simp [runFrames, frameStep], runFrames_lastFrameTime times d0 n, ?_⟩
  intro hn
  obtain ⟨m, rfl⟩ : ∃ m, n = m + 1 := ⟨n - 1, by omega⟩
  have h1 : (runFrames times d0 (m + 1 + 1)).deltaTime =
      times (m + 1) - (runFrames times d0 (m + 1)).lastFrameTime := by
    simp [runFrames, frameStep]
  rw [h1, runFrames_lastFrameTime times d0 m]
  have := hmono m
  linarith

/-- Concrete instance of C6_delta_time: the identity clock at frame 2. -/
theorem C6_delta_time_witness :
    0 ≤ (runFrames (fun n => (n : ℚ)) 7 3).deltaTime :=
  (C6_delta_time (fun n => (n : ℚ)) 7
      (fun n => by show (n : ℚ) ≤ ((n + 1 : Nat) : ℚ); exact_mod_cast Nat.le_succ n)
      2).2.2 (by decide)

/-- Claim C7: when the X server cannot be reached during window creation the
process halts at once via `std::exit(1)` after the diagnostic message, with
no retry; otherwise window creation succeeds — the display check is the only
failure path. -/
theorem C7_create_window (server : XServer) (x y : Int) (width height : Nat)
    (title : String) :
    (server.available = false →
      Platform.CreateWindow server x y width height title =
        CreateWindowOutcome.halted 1 "Can\x27t connect X server.") ∧
    (server.available = true →
      Platform.CreateWindow server x y width height title =
        CreateWindowOutcome.created x y width height title) := by
  constructor
  · intro h
    simp [Platform.CreateWindow, h]
  · intro h
    simp [Platform.CreateWindow, h]

/-- Concrete instance of C7_create_window: an unreachable and a reachable
server. -/
theorem C7_create_window_witness :
    Platform.CreateWindow ⟨false⟩ 16 16 256 256 "RapturePixelEngine Window" =
      CreateWindowOutcome.halted 1 "Can\x27t connect X server." ∧
    Platform.CreateWindow ⟨true⟩ 16 16 256 256 "RapturePixelEngine Window" =
      CreateWindowOutcome.created 16 16 256 256 "RapturePixelEngine Window" :=
  ⟨(C7_create_window ⟨false⟩ 16 16 256 256 "RapturePixelEngine Window").1 rfl,
   (C7_create_window ⟨true⟩ 16 16 256 256 "RapturePixelEngine Window").2 rfl⟩

/-- Claim C8: all four callback handlers are non-null at all times — the
default member initializers install no-op handlers for all four slots, and
replacing any one handler with a non-null handler preserves non-nullness of
all four. -/
theorem C8_callbacks_nonnull :
    callbacksDefault.allNonNull ∧
    (∀ (cs : Callbacks) (h : EventHandler), cs.allNonNull → h.isSome = true →
      (cs.setOnEventCallback h).allNonNull) ∧
    (∀ (cs : Callbacks) (h : VoidHandler), cs.allNonNull → h.isSome = true →
      (cs.setOnBegin h).allNonNull) ∧
    (∀ (cs : Callbacks) (h : VoidHandler), cs.allNonNull → h.isSome = true →
      (cs.setOnEnd h).allNonNull) ∧
    (∀ (cs : Callbacks) (h : EventHandler), cs.allNonNull → h.isSome = true →
      (cs.setOnKey h).allNonNull) := by
  refine ⟨⟨rfl, rfl, rfl, rfl⟩, ?_, ?_, ?_, ?_⟩ <;>
    · rintro cs h ⟨h1, h2, h3, h4⟩ hs
      exact ⟨by simp_all [Callbacks.setOnEventCallback, Callbacks.setOnBegin,
          Callbacks.setOnEnd, Callbacks.setOnKey],
        by simp_all [Callbacks.setOnEventCallback, Callbacks.setOnBegin,
          Callbacks.setOnEnd, Callbacks.setOnKey],
        by simp_all [Callbacks.setOnEventCallback, Callbacks.setOnBegin,
          Callbacks.setOnEnd, Callbacks.setOnKey],
        by simp_all [Callbacks.setOnEventCallback, Callbacks.setOnBegin,
          Callbacks.setOnEnd, Callbacks.setOnKey]⟩

/-- Concrete instance of C8_callbacks_nonnull: replacing OnKey on the default
set with a fresh non-null handler keeps all four non-null. -/
theorem C8_callbacks_nonnull_witness :
    (callbacksDefault.setOnKey (some noopEventHandler)).allNonNull :=
  C8_callbacks_nonnull.2.2.2.2 callbacksDefault (some noopEventHandler)
    C8_callbacks_nonnull.1 rfl

/-- Claim C9: `RapturePixelEngine::SetWindowTitle` leaves every field of the
engine state unchanged (x, y, width, height, title, deltaTime, isRunning and
all four callbacks) and only delegates to `Platform::SetWindowTitle`. -/
theorem C9_set_window_title (e : RapturePixelEngineState) (p : PlatformState)
    (t : String) :
    (RapturePixelEngine.SetWindowTitle e p t).1.x = e.x ∧
    (RapturePixelEngine.SetWindowTitle e p t).1.y = e.y ∧
    (RapturePixelEngine.SetWindowTitle e p t).1.width = e.width ∧
    (RapturePixelEngine.SetWindowTitle e p t).1.height = e.height ∧
    (RapturePixelEngine.SetWindowTitle e p t).1.title = e.title ∧
    (RapturePixelEngine.SetWindowTitle e p t).1.deltaTime = e.deltaTime ∧
    (RapturePixelEngine.SetWindowTitle e p t).1.isRunning = e.isRunning ∧
    (RapturePixelEngine.SetWindowTitle e p t).1.callbacks = e.callbacks ∧
    (RapturePixelEngine.SetWindowTitle e p t).1 = e ∧
    (RapturePixelEngine.SetWindowTitle e p t).2 = Platform.SetWindowTitle p t :=
  ⟨rfl, rfl, rfl, rfl, rfl, rfl, rfl, rfl, rfl, rfl⟩

/-- Claim C10: `lastFrameTime` is value-initialized to the clock epoch, so the
first loop iteration's deltaTime equals the first time sample's offset from
the epoch — a well-defined value, whatever indeterminate value `d0` the
engine's deltaTime field held before the loop. -/
theorem C10_first_frame (times : Nat → ℚ) (d0 : ℚ) :
    (frameTimingInit d0).lastFrameTime = 0 ∧
    (runFrames times d0 1).deltaTime = times 0 - (frameTimingInit d0).lastFrameTime ∧
    (runFrames times d0 1).deltaTime = times 0 := by
  refine ⟨rfl, by simp [runFrames, frameStep], ?_⟩
  simp [runFrames, frameStep, frameTimingInit]

/-- Program counter of the caller's thread: it calls
`RapturePixelEngine::Construct` and then `RapturePixelEngine::Start(join)`;
with `join = true` it blocks in `theThread.join()` (`joining`) until the
background thread terminates. -/
inductive MainPc : Type
  | beforeConstruct
  | beforeStart
  | joining
  | done
  deriving DecidableEq, Repr

/-- Program counter of the background thread running `TheThread`: spawned by
`Construct`, it performs `CreateWindow`, `CreateGraphics`, `ShowWindow`, then
waits on the condition variable for `isRunning`, fires `OnBegin`, and enters
the `for(;;)` loop. `fireOnEnd` is the `callbacks.OnEnd()` call after the
loop and `terminated` is the thread's end. -/
inductive BgPc : Type
  | notSpawned
  | createWindow
  | createGraphics
  | showWindow
  | awaitStart
  | fireOnBegin
  | loop
  | fireOnEnd
  | terminated
  deriving DecidableEq, Repr

/-- Position of a background program counter along the straight-line order of
`TheThread`. -/
def BgPc.level : BgPc → Nat
  | BgPc.notSpawned => 0
  | BgPc.createWindow => 1
  | BgPc.createGraphics => 2
  | BgPc.showWindow => 3
  | BgPc.awaitStart => 4
  | BgPc.fireOnBegin => 5
  | BgPc.loop => 6
  | BgPc.fireOnEnd => 7
  | BgPc.terminated => 8

/-- Observable occurrences recorded by a run, in order. -/
inductive Ev : Type
  | construct
  | windowCreated
  | graphicsCreated
  | windowShown
  | startCalled
  | onBegin
  | frame
  | onEnd
  deriving DecidableEq, Repr

/-- Shared state of the two threads: the two program counters, the
`isRunning` atomic flag, and the trace of observable occurrences so far. -/
structure SysState : Type where
  mainPc : MainPc
  bgPc : BgPc
  isRunning : Bool
  trace : List Ev
  deriving DecidableEq, Repr

/-- State at process start: nothing spawned, `isRunning{false}`. -/
def initState : SysState :=
  { mainPc := MainPc.beforeConstruct, bgPc := BgPc.notSpawned,
    isRunning := false, trace := [] }

/-- Effect of `Start(join)`: `isRunning = true`, then `theThread.join()` when
`join` holds (entering `joining`), otherwise return at once (`done`). -/
def startResult (join : Bool) (s : SysState) : SysState :=
  { s with mainPc := if join then MainPc.joining else MainPc.done,
           isRunning := true,
           trace := s.trace ++ [Ev.startCalled] }

/-- Effect of the background thread passing
`lock.wait(lock, [](){ return isRunning.load(); })`. -/
def passWaitResult (s : SysState) : SysState :=
  { s with bgPc := BgPc.fireOnBegin }

/-- One interleaving step of the two threads. Main-thread steps: `Construct`
records the configuration and spawns `theThread`; `Start` sets `isRunning`
and optionally joins; the join completes only if the background thread has
terminated. Background steps follow `TheThread` in order; the wait on the
condition variable is passable only when `isRunning` is true (its predicate);
the `for(;;)` loop body steps back to itself — no constructor leaves `loop`,
because the loop has no exit condition. -/
inductive Step (join : Bool) : SysState → SysState → Prop
  | mainConstruct (s : SysState) (hm : s.mainPc = MainPc.beforeConstruct)
      (hb : s.bgPc = BgPc.notSpawned) :
      Step join s { s with mainPc := MainPc.beforeStart, bgPc := BgPc.createWindow,
                           trace := s.trace ++ [Ev.construct] }
  | mainStart (s : SysState) (hm : s.mainPc = MainPc.beforeStart) :
      Step join s (startResult join s)
  | mainJoinFinish (s : SysState) (hm : s.mainPc = MainPc.joining)
      (hb : s.bgPc = BgPc.terminated) :
      Step join s { s with mainPc := MainPc.done }
  | bgCreateWindow (s : SysState) (hb : s.bgPc = BgPc.createWindow) :
      Step join s { s with bgPc := BgPc.createGraphics,
                           trace := s.trace ++ [Ev.windowCreated] }
  | bgCreateGraphics (s : SysState) (hb : s.bgPc = BgPc.createGraphics) :
      Step join s { s with bgPc := BgPc.showWindow,
                           trace := s.trace ++ [Ev.graphicsCreated] }
  | bgShowWindow (s : SysState) (hb : s.bgPc = BgPc.showWindow) :
      Step join s { s with bgPc := BgPc.awaitStart,
                           trace := s.trace ++ [Ev.windowShown] }
  | bgPassWait (s : SysState) (hb : s.bgPc = BgPc.awaitStart)
      (hr : s.isRunning = true) :
      Step join s (passWaitResult s)
  | bgOnBegin (s : SysState) (hb : s.bgPc = BgPc.fireOnBegin) :
      Step join s { s with bgPc := BgPc.loop, trace := s.trace ++ [Ev.onBegin] }
  | bgLoopIter (s : SysState) (hb : s.bgPc = BgPc.loop) :
      Step join s { s with trace := s.trace ++ [Ev.frame] }
  | bgFireOnEnd (s : SysState) (hb : s.bgPc = BgPc.fireOnEnd) :
      Step join s { s with bgPc := BgPc.terminated, trace := s.trace ++ [Ev.onEnd] }

/-- The states a run with blocking flag `join` can reach from process start. -/
def Reachable (join : Bool) (s : SysState) : Prop :=
  Relation.ReflTransGen (Step join) initState s

/-- Run invariant tying the trace to the two program counters. -/
structure RunInv (s : SysState) : Prop where
  construct_mem : Ev.construct ∈ s.trace ↔ 1 ≤ s.bgPc.level
  windowCreated_mem : Ev.windowCreated ∈ s.trace ↔ 2 ≤ s.bgPc.level
  graphicsCreated_mem : Ev.graphicsCreated ∈ s.trace ↔ 3 ≤ s.bgPc.level
  windowShown_mem : Ev.windowShown ∈ s.trace ↔ 4 ≤ s.bgPc.level
  onBegin_mem : Ev.onBegin ∈ s.trace ↔ 6 ≤ s.bgPc.level
  startCalled_mem : Ev.startCalled ∈ s.trace ↔
    (s.mainPc = MainPc.joining ∨ s.mainPc = MainPc.done)
  running_started : s.isRunning = true ↔ Ev.startCalled ∈ s.trace
  passed_started : 5 ≤ s.bgPc.level → Ev.startCalled ∈ s.trace
  frame_loop : Ev.frame ∈ s.trace → s.bgPc = BgPc.loop
  level_le : s.bgPc.level ≤ 6
  onEnd_not_mem : Ev.onEnd ∉ s.trace

theorem runInv_init : RunInv initState := by
  refine ⟨?_, ?_, ?_, ?_, ?_, ?_, ?_, ?_, ?_, ?_, ?_⟩ <;> simp [initState, BgPc.level]

theorem runInv_step (join : Bool) {s t : SysState} (hstep : Step join s t)
    (hinv : RunInv s) : RunInv t := by
  obtain ⟨i1, i2, i3, i4, i5, i6, i7, i8, i9, i10, i11⟩ := hinv
  cases hstep with
  | mainConstruct hm hb =>
      refine ⟨?_, ?_, ?_, ?_, ?_, ?_, ?_, ?_, ?_, ?_, ?_⟩ <;>
        simp_all [BgPc.level]
  | mainStart hm =>
      cases join <;>
        · refine ⟨?_, ?_, ?_, ?_, ?_, ?_, ?_, ?_, ?_, ?_, ?_⟩ <;>
            simp_all [BgPc.level, startResult]
  | mainJoinFinish hm hb =>
      rw [hb] at i10
      exact absurd i10 (by decide)
  | bgCreateWindow hb =>
      refine ⟨?_, ?_, ?_, ?_, ?_, ?_, ?_, ?_, ?_, ?_, ?_⟩ <;>
        simp_all [BgPc.level]
  | bgCreateGraphics hb =>
      refine ⟨?_, ?_, ?_, ?_, ?_, ?_, ?_, ?_, ?_, ?_, ?_⟩ <;>
        simp_all [BgPc.level]
  | bgShowWindow hb =>
      refine ⟨?_, ?_, ?_, ?_, ?_, ?_, ?_, ?_, ?_, ?_, ?_⟩ <;>
        simp_all [BgPc.level]
  | bgPassWait hb hr =>
      refine ⟨?_, ?_, ?_, ?_, ?_, ?_, ?_, ?_, ?_, ?_, ?_⟩ <;>
        simp_all [BgPc.level, passWaitResult]
  | bgOnBegin hb =>
      refine ⟨?_, ?_, ?_, ?_, ?_, ?_, ?_, ?_, ?_, ?_, ?_⟩ <;>
        simp_all [BgPc.level]
  | bgLoopIter hb =>
      refine ⟨?_, ?_, ?_, ?_, ?_, ?_, ?_, ?_, ?_, ?_, ?_⟩ <;>
        simp_all [BgPc.level]
  | bgFireOnEnd hb =>
      rw [hb] at i10
      exact absurd i10 (by decide)

theorem runInv_reachable (join : Bool) (s : SysState) (h : Reachable join s) :
    RunInv s := by
  induction h with
  | refl => exact runInv_init
  | tail hab hbc ih => exact runInv_step join hbc ih

theorem BgPc.one_le_level_iff (pc : BgPc) : 1 ≤ pc.level ↔ pc ≠ BgPc.notSpawned := by
  cases pc <;> decide

/-- Claim C2: `Start` sets `isRunning` to true, which is exactly the
predicate that lets the background thread pass its condition-variable wait;
with `join = false` it returns immediately (main reaches `done` in that one
step while the background thread keeps running), and with `join = true` the
caller enters `theThread.join()` and remains suspended as long as the
background thread has not terminated. -/
theorem C2_start_semantics (join : Bool) (s : SysState) (h : Reachable join s) :
    (s.mainPc = MainPc.beforeStart →
      Step join s (startResult join s) ∧
      (startResult join s).isRunning = true ∧
      (join = false → (startResult join s).mainPc = MainPc.done) ∧
      (join = true → (startResult join s).mainPc = MainPc.joining)) ∧
    (s.bgPc = BgPc.awaitStart → s.isRunning = true →
      Step join s (passWaitResult s) ∧ (passWaitResult s).bgPc = BgPc.fireOnBegin) ∧
    (s.mainPc = MainPc.joining → ∀ t, Step join s t → t.mainPc = MainPc.joining) := by
  obtain ⟨i1, i2, i3, i4, i5, i6, i7, i8, i9, i10, i11⟩ := runInv_reachable join s h
  refine ⟨?_, ?_, ?_⟩
  · intro hm
    refine ⟨Step.mainStart s hm, rfl, ?_, ?_⟩
    · rintro rfl
      simp [startResult]
    · rintro rfl
      simp [startResult]
  · intro hb hr
    exact ⟨Step.bgPassWait s hb hr, rfl⟩
  · intro hm t hstep
    cases hstep with
    | mainConstruct hm2 hb => simp_all
    | mainStart hm2 => simp_all
    | mainJoinFinish hm2 hb =>
        rw [hb] at i10
        exact absurd i10 (by decide)
    | bgCreateWindow hb => simp_all
    | bgCreateGraphics hb => simp_all
    | bgShowWindow hb => simp_all
    | bgPassWait hb hr => simp_all [passWaitResult]
    | bgOnBegin hb => simp_all
    | bgLoopIter hb => simp_all
    | bgFireOnEnd hb => simp_all

/-- Claim C3: in every run, the background thread is spawned exactly when
`Construct` runs (not at `Start`); window creation, graphics initialization
and show-window have all completed whenever the background thread has reached
its await-start point; the wait is never passed before `Start` was called;
`onBegin` fires only after `Start`; and `onBegin` precedes the first frame
iteration. -/
theorem C3_happens_before (join : Bool) (s : SysState) (h : Reachable join s) :
    (s.bgPc ≠ BgPc.notSpawned ↔ Ev.construct ∈ s.trace) ∧
    (4 ≤ s.bgPc.level →
      Ev.windowCreated ∈ s.trace ∧ Ev.graphicsCreated ∈ s.trace ∧
        Ev.windowShown ∈ s.trace) ∧
    (5 ≤ s.bgPc.level → Ev.startCalled ∈ s.trace) ∧
    (Ev.onBegin ∈ s.trace → Ev.startCalled ∈ s.trace) ∧
    (Ev.frame ∈ s.trace → Ev.onBegin ∈ s.trace) := by
  obtain ⟨i1, i2, i3, i4, i5, i6, i7, i8, i9, i10, i11⟩ := runInv_reachable join s h
  refine ⟨(BgPc.one_le_level_iff s.bgPc).symm.trans i1.symm, ?_, i8, ?_, ?_⟩
  · intro h4
    exact ⟨i2.mpr (by omega), i3.mpr (by omega), i4.mpr h4⟩
  · intro hm
    have h6 := i5.mp hm
    exact i8 (by omega)
  · intro hf
    have hl : s.bgPc = BgPc.loop := i9 hf
    exact i5.mpr (by rw [hl]; decide)

/-- Claim C5: no step leaves the `for(;;)` loop once the background thread is
in it, the terminal states (`fireOnEnd`, `terminated`) are unreachable, and
`onEnd` never appears in the trace of any run. -/
theorem C5_loop_never_exits (join : Bool) (s : SysState) (h : Reachable join s) :
    (s.bgPc = BgPc.loop → ∀ t, Step join s t → t.bgPc = BgPc.loop) ∧
    s.bgPc ≠ BgPc.fireOnEnd ∧ s.bgPc ≠ BgPc.terminated ∧ Ev.onEnd ∉ s.trace := by
  obtain ⟨i1, i2, i3, i4, i5, i6, i7, i8, i9, i10, i11⟩ := runInv_reachable join s h
  refine ⟨?_, ?_, ?_, i11⟩
  · intro hl t hstep
    cases hstep with
    | mainConstruct hm2 hb => simp_all
    | mainStart hm2 => simp_all [startResult]
    | mainJoinFinish hm2 hb => simp_all
    | bgCreateWindow hb => simp_all
    | bgCreateGraphics hb => simp_all
    | bgShowWindow hb => simp_all
    | bgPassWait hb hr => simp_all [passWaitResult]
    | bgOnBegin hb => simp_all
    | bgLoopIter hb => simp_all
    | bgFireOnEnd hb => simp_all
  · intro hEq
    rw [hEq] at i10
    exact absurd i10 (by decide)
  · intro hEq
    rw [hEq] at i10
    exact absurd i10 (by decide)

/-- State after `Construct` in a concrete non-blocking run. -/
def runState1 : SysState :=
  { mainPc := MainPc.beforeStart, bgPc := BgPc.createWindow, isRunning := false,
    trace := [Ev.construct] }

/-- State after the background thread created the window. -/
def runState2 : SysState :=
  { mainPc := MainPc.beforeStart, bgPc := BgPc.createGraphics, isRunning := false,
    trace := [Ev.construct, Ev.windowCreated] }

/-- State after graphics initialization. -/
def runState3 : SysState :=
  { mainPc := MainPc.beforeStart, bgPc := BgPc.showWindow, isRunning := false,
    trace := [Ev.construct, Ev.windowCreated, Ev.graphicsCreated] }

/-- State with the window visible and the background thread at its wait. -/
def runState4 : SysState :=
  { mainPc := MainPc.beforeStart, bgPc := BgPc.awaitStart, isRunning := false,
    trace := [Ev.construct, Ev.windowCreated, Ev.graphicsCreated, Ev.windowShown] }

/-- State after `Start(false)`. -/
def runState5 : SysState :=
  { mainPc := MainPc.done, bgPc := BgPc.awaitStart, isRunning := true,
    trace := [Ev.construct, Ev.windowCreated, Ev.graphicsCreated, Ev.windowShown,
      Ev.startCalled] }

/-- State after the background thread passed its wait. -/
def runState6 : SysState :=
  { mainPc := MainPc.done, bgPc := BgPc.fireOnBegin, isRunning := true,
    trace := [Ev.construct, Ev.windowCreated, Ev.graphicsCreated, Ev.windowShown,
      Ev.startCalled] }

/-- State after `OnBegin` fired, on entry to the loop. -/
def runState7 : SysState :=
  { mainPc := MainPc.done, bgPc := BgPc.loop, isRunning := true,
    trace := [Ev.construct, Ev.windowCreated, Ev.graphicsCreated, Ev.windowShown,
      Ev.startCalled, Ev.onBegin] }

/-- State after one loop iteration. -/
def runState8 : SysState :=
  { mainPc := MainPc.done, bgPc := BgPc.loop, isRunning := true,
    trace := [Ev.construct, Ev.windowCreated, Ev.graphicsCreated, Ev.windowShown,
      Ev.startCalled, Ev.onBegin, Ev.frame] }

theorem reach1 : Reachable false runState1 :=
  Relation.ReflTransGen.single (Step.mainConstruct initState rfl rfl)

theorem reach2 : Reachable false runState2 :=
  Relation.ReflTransGen.tail reach1 (Step.bgCreateWindow runState1 rfl)

theorem reach3 : Reachable false runState3 :=
  Relation.ReflTransGen.tail reach2 (Step.bgCreateGraphics runState2 rfl)

theorem reach4 : Reachable false runState4 :=
  Relation.ReflTransGen.tail reach3 (Step.bgShowWindow runState3 rfl)

theorem reach5 : Reachable false runState5 :=
  Relation.ReflTransGen.tail reach4 (Step.mainStart runState4 rfl)

theorem reach6 : Reachable false runState6 :=
  Relation.ReflTransGen.tail reach5 (Step.bgPassWait runState5 rfl rfl)

theorem reach7 : Reachable false runState7 :=
  Relation.ReflTransGen.tail reach6 (Step.bgOnBegin runState6 rfl)

theorem reach8 : Reachable false runState8 :=
  Relation.ReflTransGen.tail reach7 (Step.bgLoopIter runState7 rfl)

/-- Concrete instance of C2_start_semantics: on the run above, `Start(false)`
sets the flag and finishes in one step, and from the started state the
background thread's wait is passable. -/
theorem C2_start_semantics_witness :
    (startResult false runState4).isRunning = true ∧
    (startResult false runState4).mainPc = MainPc.done ∧
    (passWaitResult runState5).bgPc = BgPc.fireOnBegin :=
  ⟨((C2_start_semantics false runState4 reach4).1 rfl).2.1,
   ((C2_start_semantics false runState4 reach4).1 rfl).2.2.1 rfl,
   ((C2_start_semantics false runState5 reach5).2.1 rfl rfl).2⟩

/-- Concrete instance of C3_happens_before: the spawn/configure equivalence
after `Construct`, the completed setup at the await point, and `onBegin`
having fired by the time a frame ran. -/
theorem C3_happens_before_witness :
    (runState1.bgPc ≠ BgPc.notSpawned ↔ Ev.construct ∈ runState1.trace) ∧
    (Ev.windowCreated ∈ runState4.trace ∧ Ev.graphicsCreated ∈ runState4.trace ∧
      Ev.windowShown ∈ runState4.trace) ∧
    Ev.onBegin ∈ runState8.trace :=
  ⟨(C3_happens_before false runState1 reach1).1,
   (C3_happens_before false runState4 reach4).2.1 (by decide),
   (C3_happens_before false runState8 reach8).2.2.2.2 (by decide)⟩

/-- Concrete instance of C5_loop_never_exits at a state inside the loop. -/
theorem C5_loop_never_exits_witness :
    runState8.bgPc ≠ BgPc.fireOnEnd ∧ runState8.bgPc ≠ BgPc.terminated ∧
    Ev.onEnd ∉ runState8.trace :=
  ⟨(C5_loop_never_exits false runState8 reach8).2.1,
   (C5_loop_never_exits false runState8 reach8).2.2.1,
   (C5_loop_never_exits false runState8 reach8).2.2.2⟩
